import Mathlib

/-!
Shallow embedding of the `vattenpump` repository core (src/app.py, with
src/pump_control.py and src/main.py as near-duplicates).  Python integers
are modelled as `Int`; the float expression in `get_moisture_percent` is
idealized as exact rational arithmetic, whose truncation to `int` is
`Int.tdiv` on the numerator/denominator — the theorems about its ok-path
quantify only over domains where CPython's IEEE-double evaluation provably
agrees with the exact value; Python exceptions are
modelled with `Except`; the timer background thread of
`PumpController._timer_worker` is modelled as an explicit state
transformer that also returns the list of values passed to the progress
callback (sequential semantics: the run of the worker with no concurrent
foreground interference).
-/

namespace Vattenpump

/-- Python exceptions that `SensorReader.get_moisture_percent` can raise:
`IndexError` from `self.moisture[sensor_index]` (the spec's OutOfRange) and
`ZeroDivisionError` from `/ (dry - wet)` (the spec's InvalidCalibration). -/
inductive SensorError where
  | indexError
  | zeroDivisionError
deriving DecidableEq, Repr

/-- State of `SensorReader` (src/app.py:140-196) relevant to the claims:
`self.moisture` (a Python list of ints) and `self.temperature`. -/
structure SensorReader where
  moisture : List Int
  temperature : Int
deriving DecidableEq, Repr

/-- Embedding of `SensorReader.__init__` (src/app.py:141-144): `self.moisture = [0, 0, 0, 0]`,
`self.temperature = 0`. -/
def SensorReader.init : SensorReader :=
  { moisture := [0, 0, 0, 0], temperature := 0 }

/-- Python list indexing `xs[i]` for `i : Int`: a non-negative index must be
`< len(xs)`; a negative index `i` with `-len(xs) ≤ i` aliases `xs[len(xs)+i]`;
anything else raises `IndexError` (modelled as `none`). -/
def pyListGet (xs : List Int) (i : Int) : Option Int :=
  if 0 ≤ i ∧ i < (xs.length : Int) then xs.get? i.toNat
  else if -(xs.length : Int) ≤ i ∧ i < 0 then xs.get? ((xs.length : Int) + i).toNat
  else none

/-- Embedding of `SensorReader.get_moisture_percent` (src/app.py:193-196):
`raw = self.moisture[sensor_index]` evaluated first (so `IndexError` takes
precedence), then
`percent = max(0, min(100, int((dry - raw) / (dry - wet) * 100)))`.
The float evaluation is idealized as exact rational arithmetic: `int()`
truncates toward zero, which on the exact value is
`Int.tdiv ((dry - raw) * 100) (dry - wet)`.  CPython evaluates the inner
expression with IEEE doubles; that agrees with the exact value on both
error paths and whenever the exact result is an exactly representable
integer or far from every integer boundary — in particular for the default
bounds `dry = 1023, wet = 400` over the whole sensor range
`raw ∈ [0, 1023]` — but it can differ by one for other bounds (e.g.
`dry = 1023, wet = 923, raw = 994`: floats give `int(28.999...) = 28`
while the exact value is 29).  The ok-path theorems below therefore
quantify only over domains where the two agree. -/
def SensorReader.get_moisture_percent (s : SensorReader) (sensor_index dry wet : Int) :
    Except SensorError Int :=
  match pyListGet s.moisture sensor_index with
  | none => .error .indexError
  | some raw =>
    if dry - wet = 0 then .error .zeroDivisionError
    else .ok (max 0 (min 100 (Int.tdiv ((dry - raw) * 100) (dry - wet))))

/-- State of `PumpController` (src/app.py:27-137) in simulation mode.
`update_callback` records whether a progress callback is registered
(Python stores the callable; only its truthiness matters to the control
flow, and its invocations are modelled as an emitted trace). -/
structure PumpController where
  is_running : Bool
  current_speed : Int
  timer_running : Bool
  timer_stop_flag : Bool
  timer_remaining : Int
  timer_speed : Int
  update_callback : Bool
deriving DecidableEq, Repr

/-- Embedding of `PumpController.__init__` (src/app.py:28-36). -/
def PumpController.init : PumpController :=
  { is_running := false
    current_speed := 0
    timer_running := false
    timer_stop_flag := false
    timer_remaining := 0
    timer_speed := 0
    update_callback := false }

/-- Embedding of `PumpController.start_pump` (src/app.py:62-77): returns `False` and leaves
the state alone when already running; otherwise clamps the speed into
`[0, 100]`, stores it, sets `is_running` and returns `True`. -/
def start_pump (c : PumpController) (speed : Int) : PumpController × Bool :=
  if c.is_running then (c, false)
  else
    let s := max 0 (min 100 speed)
    ({ c with current_speed := s, is_running := true }, true)

/-- Embedding of `PumpController.stop_pump` (src/app.py:79-92): returns `False` when not
running; otherwise clears `is_running`, resets `current_speed` to 0 and
returns `True`. -/
def stop_pump (c : PumpController) : PumpController × Bool :=
  if c.is_running then
    ({ c with is_running := false, current_speed := 0 }, true)
  else (c, false)

/-- Embedding of `PumpController.start_timer` (src/app.py:94-106): returns `False` when a
timer is already running; otherwise records the timer fields, registers the
callback and spawns `_timer_worker` (modelled separately by `timer_worker`). -/
def start_timer (c : PumpController) (seconds speed : Int) (callback : Bool) :
    PumpController × Bool :=
  if c.timer_running then (c, false)
  else
    let c1 :=
      { c with
        timer_running := true
        timer_stop_flag := false
        timer_remaining := seconds
        timer_speed := speed
        update_callback := callback }
    (c1, true)

/-- Python `range(seconds, -1, -1)`: `[seconds, seconds-1, ..., 1, 0]` when
`seconds ≥ 0`, empty otherwise. -/
def pyRangeDown (seconds : Int) : List Int :=
  if seconds < 0 then []
  else (List.range (seconds.toNat + 1)).map (fun (k : Nat) => seconds - (k : Int))

/-- The `for remaining in range(seconds, -1, -1)` loop of
`PumpController._timer_worker` (src/app.py:111-117): before each iteration the
stop flag is checked (`break` when set); otherwise `timer_remaining` is set to
`remaining` and, when a callback is registered, the callback is invoked with
`remaining` (appended to the trace). -/
def timer_loop (c : PumpController) (items : List Int) (trace : List Int) :
    PumpController × List Int :=
  match items with
  | [] => (c, trace)
  | remaining :: rest =>
    if c.timer_stop_flag then (c, trace)
    else
      timer_loop { c with timer_remaining := remaining } rest
        (if c.update_callback then trace ++ [remaining] else trace)

/-- Embedding of `PumpController._timer_worker` (src/app.py:108-124): `start_pump(speed)`,
the countdown loop, then `stop_pump()`, `timer_running = False`,
`timer_remaining = 0`, and a final `callback(0)` when a callback is
registered.  Returns the final state and the full callback trace. -/
def timer_worker (c : PumpController) (seconds speed : Int) :
    PumpController × List Int :=
  let c1 := (start_pump c speed).1
  let p := timer_loop c1 (pyRangeDown seconds) []
  let c2 := (stop_pump p.1).1
  let c3 := { c2 with timer_running := false, timer_remaining := 0 }
  (c3, if c3.update_callback then p.2 ++ [0] else p.2)

/-- Embedding of `PumpController.stop_timer` (src/app.py:126-133): when a timer is running,
sets the stop flag, calls `stop_pump()`, clears `timer_running` and returns
`True`; otherwise returns `False` with the state unchanged. -/
def stop_timer (c : PumpController) : PumpController × Bool :=
  if c.timer_running then
    let c1 := { c with timer_stop_flag := true }
    let c2 := (stop_pump c1).1
    ({ c2 with timer_running := false }, true)
  else (c, false)

/-- Embedding of `PumpController.cleanup` (src/app.py:135-137): `stop_timer()` then
`stop_pump()`, both return values ignored. -/
def cleanup (c : PumpController) : PumpController :=
  (stop_pump (stop_timer c).1).1

/-- The PumpState invariant of spec §3: `speed == 0` whenever
`running == false`, and `running == true` implies `0 <= speed <= 100`. -/
abbrev PumpInv (c : PumpController) : Prop :=
  (c.is_running = false → c.current_speed = 0) ∧
  (c.is_running = true → 0 ≤ c.current_speed ∧ c.current_speed ≤ 100)

/-- Decidable equality for the result type of `get_moisture_percent`. -/
instance : DecidableEq (Except SensorError Int)
  | .ok x, .ok y =>
    if h : x = y then .isTrue (by rw [h])
    else .isFalse (fun hh => h (Except.ok.inj hh))
  | .ok _, .error _ => .isFalse (fun hh => Except.noConfusion hh)
  | .error _, .ok _ => .isFalse (fun hh => Except.noConfusion hh)
  | .error e, .error f =>
    if h : e = f then .isTrue (by rw [h])
    else .isFalse (fun hh => h (Except.error.inj hh))

/-- A fixed `SensorReader` state whose channels carry the three raw values the
spec discusses (1023, 400 and 700) plus a filler. -/
def sensorC3 : SensorReader := { moisture := [1023, 400, 700, 0], temperature := 0 }

/- ### Helper lemmas shared by several claims -/

/-- The countdown loop only writes `timer_remaining`: every other field of the
controller is returned unchanged. -/
theorem timer_loop_fields (items : List Int) (c : PumpController) (trace : List Int) :
    (timer_loop c items trace).1.is_running = c.is_running ∧
    (timer_loop c items trace).1.current_speed = c.current_speed ∧
    (timer_loop c items trace).1.timer_running = c.timer_running ∧
    (timer_loop c items trace).1.timer_stop_flag = c.timer_stop_flag ∧
    (timer_loop c items trace).1.update_callback = c.update_callback := by
  induction items generalizing c trace with
  | nil => simp [timer_loop]
  | cons r rest ih =>
    by_cases h : c.timer_stop_flag
    · simp [timer_loop, h]
    · simp only [Bool.not_eq_true] at h
      simpa [timer_loop, h] using
        ih { c with timer_remaining := r } (if c.update_callback then trace ++ [r] else trace)

/-- When the stop flag is down and a callback is registered, the loop invokes
the callback once per item, in order. -/
theorem timer_loop_trace (items : List Int) (c : PumpController) (trace : List Int)
    (hflag : c.timer_stop_flag = false) (hcb : c.update_callback = true) :
    (timer_loop c items trace).2 = trace ++ items := by
  induction items generalizing c trace with
  | nil => simp [timer_loop]
  | cons r rest ih =>
    rw [timer_loop]
    rw [if_neg (by rw [hflag]; exact Bool.false_ne_true)]
    rw [ih { c with timer_remaining := r }
      (if c.update_callback = true then trace ++ [r] else trace) hflag hcb]
    rw [if_pos hcb]
    simp

/-- Operation `start_pump` preserves the PumpState invariant, for any speed argument. -/
theorem start_pump_inv (c : PumpController) (speed : Int) (h : PumpInv c) :
    PumpInv (start_pump c speed).1 := by
  rcases c with ⟨ir, cs, tr, tf, trem, tspd, cb⟩
  cases ir
  · refine ⟨fun hx => Bool.noConfusion hx, fun _ => ⟨le_max_left _ _, ?_⟩⟩
    exact max_le (by norm_num) (min_le_left _ _)
  · exact h

/-- Operation `stop_pump` preserves the PumpState invariant. -/
theorem stop_pump_inv (c : PumpController) (h : PumpInv c) :
    PumpInv (stop_pump c).1 := by
  rcases c with ⟨ir, cs, tr, tf, trem, tspd, cb⟩
  cases ir
  · exact h
  · exact ⟨fun _ => rfl, fun hx => Bool.noConfusion hx⟩

/-- Operation `stop_timer` preserves the PumpState invariant. -/
theorem stop_timer_inv (c : PumpController) (h : PumpInv c) :
    PumpInv (stop_timer c).1 := by
  rcases c with ⟨ir, cs, tr, tf, trem, tspd, cb⟩
  cases tr
  · exact h
  · cases ir
    · exact ⟨fun _ => h.1 rfl, fun hx => Bool.noConfusion hx⟩
    · exact ⟨fun _ => rfl, fun hx => Bool.noConfusion hx⟩

/-- Operation `start_timer` preserves the PumpState invariant (it only writes timer
bookkeeping fields). -/
theorem start_timer_inv (c : PumpController) (seconds speed : Int) (cb : Bool)
    (h : PumpInv c) : PumpInv (start_timer c seconds speed cb).1 := by
  rcases c with ⟨ir, cs, tr, tf, trem, tspd, ucb⟩
  cases tr
  · exact h
  · exact h

/-- The timer worker preserves the PumpState invariant. -/
theorem timer_worker_inv (c : PumpController) (seconds speed : Int) (h : PumpInv c) :
    PumpInv (timer_worker c seconds speed).1 := by
  have h1 := start_pump_inv c speed h
  have hf := timer_loop_fields (pyRangeDown seconds) (start_pump c speed).1 []
  have h2 : PumpInv (timer_loop (start_pump c speed).1 (pyRangeDown seconds) []).1 := by
    refine ⟨fun hx => ?_, fun hx => ?_⟩
    · rw [hf.2.1]; exact h1.1 (by rw [← hf.1]; exact hx)
    · rw [hf.2.1]; exact h1.2 (by rw [← hf.1]; exact hx)
  exact stop_pump_inv _ h2

/-- Unfolding of the second component of `timer_worker` (the callback trace). -/
theorem timer_worker_snd (c : PumpController) (seconds speed : Int) :
    (timer_worker c seconds speed).2 =
      (if (stop_pump (timer_loop (start_pump c speed).1 (pyRangeDown seconds) []).1).1.update_callback
       then (timer_loop (start_pump c speed).1 (pyRangeDown seconds) []).2 ++ [0]
       else (timer_loop (start_pump c speed).1 (pyRangeDown seconds) []).2) := rfl

/-- Operation `stop_pump` never changes the registered callback. -/
theorem stop_pump_update_callback (c : PumpController) :
    (stop_pump c).1.update_callback = c.update_callback := by
  rcases c with ⟨ir, cs, tr, tf, trem, tspd, cb⟩
  cases ir <;> rfl

/-- Operation `start_pump` never changes the stop flag or the registered callback. -/
theorem start_pump_fields (c : PumpController) (speed : Int) :
    (start_pump c speed).1.timer_stop_flag = c.timer_stop_flag ∧
    (start_pump c speed).1.update_callback = c.update_callback := by
  rcases c with ⟨ir, cs, tr, tf, trem, tspd, cb⟩
  cases ir <;> exact ⟨rfl, rfl⟩

/-- With the stop flag down and a callback registered, the timer worker's full
callback trace is the countdown `range(seconds, -1, -1)` followed by one more
terminal `0`. -/
theorem timer_worker_trace (c : PumpController) (seconds speed : Int)
    (hflag : c.timer_stop_flag = false) (hcb : c.update_callback = true) :
    (timer_worker c seconds speed).2 = pyRangeDown seconds ++ [0] := by
  have hsf := (start_pump_fields c speed).1.trans hflag
  have hsc := (start_pump_fields c speed).2.trans hcb
  have h1 := timer_loop_trace (pyRangeDown seconds) (start_pump c speed).1 [] hsf hsc
  have h2 := timer_loop_fields (pyRangeDown seconds) (start_pump c speed).1 []
  rw [timer_worker_snd, stop_pump_update_callback, h2.2.2.2.2.trans hsc, h1]
  simp

/- ### Claim theorems -/

/-- C4: the PumpState invariant (`speed == 0` whenever `running == false`, and
`running == true` implies `0 <= speed <= 100`) holds in the initial state and
is preserved by `start_pump`, `stop_pump`, `start_timer`, the timer worker,
`stop_timer` and `cleanup`, for every (possibly out-of-range) speed argument. -/
theorem C4_pump_state_invariant (c : PumpController) (speed seconds : Int) (cb : Bool)
    (h : PumpInv c) :
    PumpInv PumpController.init ∧
    PumpInv (start_pump c speed).1 ∧
    PumpInv (stop_pump c).1 ∧
    PumpInv (start_timer c seconds speed cb).1 ∧
    PumpInv (timer_worker c seconds speed).1 ∧
    PumpInv (stop_timer c).1 ∧
    PumpInv (cleanup c) :=
  ⟨⟨fun _ => rfl, fun hx => Bool.noConfusion hx⟩,
   start_pump_inv c speed h,
   stop_pump_inv c h,
   start_timer_inv c seconds speed cb h,
   timer_worker_inv c seconds speed h,
   stop_timer_inv c h,
   stop_pump_inv _ (stop_timer_inv c h)⟩

/-- Witness for C4 at a concrete state (running at clamped speed 100 after
`start_pump` with the out-of-range argument 150). -/
theorem C4_pump_state_invariant_witness :
    PumpInv PumpController.init ∧
    PumpInv (start_pump (start_pump PumpController.init 150).1 250).1 ∧
    PumpInv (stop_pump (start_pump PumpController.init 150).1).1 ∧
    PumpInv (start_timer (start_pump PumpController.init 150).1 3 250 true).1 ∧
    PumpInv (timer_worker (start_pump PumpController.init 150).1 3 250).1 ∧
    PumpInv (stop_timer (start_pump PumpController.init 150).1).1 ∧
    PumpInv (cleanup (start_pump PumpController.init 150).1) :=
  C4_pump_state_invariant (start_pump PumpController.init 150).1 250 3 true
    (by constructor <;> decide)

/-- C5: calling `start_pump` on a controller that is already running returns
`False` and leaves the state (running flag and current speed) unchanged. -/
theorem C5_double_start_rejected (c : PumpController) (speed : Int)
    (h : c.is_running = true) :
    start_pump c speed = (c, false) := by
  rw [start_pump, if_pos h]

/-- Witness for C5: a second `start_pump` after `start_pump(30)` fails and
changes nothing. -/
theorem C5_double_start_rejected_witness :
    start_pump (start_pump PumpController.init 30).1 50
      = ((start_pump PumpController.init 30).1, false) :=
  C5_double_start_rejected (start_pump PumpController.init 30).1 50 rfl

/-- C6: from every invariant-respecting state with an active timer,
`stop_timer` returns `True` and synchronously leaves the pump stopped
(`is_running = false`, `current_speed = 0`) and the timer inactive. -/
theorem C6_stop_timer_synchronous (c : PumpController) (hInv : PumpInv c)
    (ht : c.timer_running = true) :
    (stop_timer c).1.is_running = false ∧
    (stop_timer c).1.current_speed = 0 ∧
    (stop_timer c).1.timer_running = false ∧
    (stop_timer c).2 = true := by
  rcases c with ⟨ir, cs, tr, tf, trem, tspd, cb⟩
  cases tr
  · exact Bool.noConfusion ht
  · cases ir
    · exact ⟨rfl, hInv.1 rfl, rfl, rfl⟩
    · exact ⟨rfl, rfl, rfl, rfl⟩

/-- Witness for C6 after `start_pump(40)` then `start_timer(5, 60, cb)`. -/
theorem C6_stop_timer_synchronous_witness :
    (stop_timer (start_timer (start_pump PumpController.init 40).1 5 60 true).1).1.is_running
      = false ∧
    (stop_timer (start_timer (start_pump PumpController.init 40).1 5 60 true).1).1.current_speed
      = 0 ∧
    (stop_timer (start_timer (start_pump PumpController.init 40).1 5 60 true).1).1.timer_running
      = false ∧
    (stop_timer (start_timer (start_pump PumpController.init 40).1 5 60 true).1).2 = true :=
  C6_stop_timer_synchronous (start_timer (start_pump PumpController.init 40).1 5 60 true).1
    (by constructor <;> decide) rfl

/-- C9: from every invariant-respecting state, `cleanup` composed with itself
equals a single `cleanup` (idempotence, no possible failure), and after a
`cleanup` the pump is stopped (`is_running = false`, `current_speed = 0`) and
no timer is active. -/
theorem C9_cleanup_idempotent (c : PumpController) (h : PumpInv c) :
    cleanup (cleanup c) = cleanup c ∧
    (cleanup c).is_running = false ∧
    (cleanup c).current_speed = 0 ∧
    (cleanup c).timer_running = false := by
  rcases c with ⟨ir, cs, tr, tf, trem, tspd, cb⟩
  cases ir
  · have hcs : cs = 0 := h.1 rfl
    subst hcs
    cases tr <;> exact ⟨rfl, rfl, rfl, rfl⟩
  · cases tr <;> exact ⟨rfl, rfl, rfl, rfl⟩

/-- C1 (amended): starting a timer while the pump is already manually running
does NOT override the speed: `start_pump(speed)` inside `_timer_worker`
early-returns `False` because the pump is running, so the manual speed is
kept. -/
theorem C1_timer_start_does_not_override (c : PumpController) (seconds s2 : Int)
    (cb : Bool) (hrun : c.is_running = true) :
    (start_pump (start_timer c seconds s2 cb).1 s2).1.current_speed = c.current_speed ∧
    (start_pump (start_timer c seconds s2 cb).1 s2).2 = false := by
  rcases c with ⟨ir, cs, tr, tf, trem, tspd, ucb⟩
  cases ir
  · exact Bool.noConfusion hrun
  · cases tr
    · exact ⟨rfl, rfl⟩
    · exact ⟨rfl, rfl⟩

/-- C1 counterexample: pump manually running at 30, then `start_timer(3, 50)`;
the worker's `start_pump(50)` leaves the speed at 30, not the timer's 50. -/
theorem C1_counterexample :
    (start_pump (start_timer (start_pump PumpController.init 30).1 3 50 true).1 50).1.current_speed
      = 30 ∧
    ¬ ((start_pump (start_timer (start_pump PumpController.init 30).1 3 50 true).1 50).1.current_speed
      = 50) :=
  ⟨rfl, by decide⟩

/-- Witness for C1 in the same concrete scenario. -/
theorem C1_timer_start_does_not_override_witness :
    (start_pump (start_timer (start_pump PumpController.init 30).1 3 50 true).1 50).1.current_speed
      = (start_pump PumpController.init 30).1.current_speed ∧
    (start_pump (start_timer (start_pump PumpController.init 30).1 3 50 true).1 50).2 = false :=
  C1_timer_start_does_not_override (start_pump PumpController.init 30).1 3 50 true rfl

/-- C2 (amended): an uncancelled timer started on a fresh controller invokes
the callback with `seconds, seconds-1, ..., 1, 0` and then one extra terminal
`0`: `cb(0)` is invoked exactly twice, not once. -/
theorem C2_callback_sequence_double_zero (seconds speed : Int) (hsec : 0 < seconds) :
    (timer_worker (start_timer PumpController.init seconds speed true).1 seconds speed).2
      = (List.range (seconds.toNat + 1)).map (fun (k : Nat) => seconds - (k : Int)) ++ [0] ∧
    ((timer_worker (start_timer PumpController.init seconds speed true).1 seconds speed).2).count 0
      = 2 := by
  have hw := timer_worker_trace (start_timer PumpController.init seconds speed true).1
    seconds speed rfl rfl
  have hpy : pyRangeDown seconds
      = (List.range (seconds.toNat + 1)).map (fun (k : Nat) => seconds - (k : Int)) := by
    unfold pyRangeDown
    rw [if_neg (by omega)]
  refine ⟨by rw [hw, hpy], ?_⟩
  rw [hw, hpy, List.count_append, List.range_succ, List.map_append, List.count_append]
  have hzero : ((List.range seconds.toNat).map (fun (k : Nat) => seconds - (k : Int))).count 0 = 0 := by
    rw [List.count_eq_zero]
    intro hmem
    rw [List.mem_map] at hmem
    obtain ⟨k, hk, hval⟩ := hmem
    rw [List.mem_range] at hk
    omega
  have hlast : seconds - (seconds.toNat : Int) = 0 := by omega
  rw [hzero]
  simp only [List.map_cons, List.map_nil]
  rw [hlast]
  simp

/-- C2 counterexample: `start_timer(3, 50, cb)` run to natural completion
produces the callback trace `3,2,1,0,0` — not `3,2,1,0` — with `cb(0)` invoked
twice. -/
theorem C2_counterexample :
    (timer_worker (start_timer PumpController.init 3 50 true).1 3 50).2 = [3, 2, 1, 0, 0] ∧
    ¬ ((timer_worker (start_timer PumpController.init 3 50 true).1 3 50).2 = [3, 2, 1, 0]) ∧
    ((timer_worker (start_timer PumpController.init 3 50 true).1 3 50).2).count 0 = 2 :=
  ⟨rfl, by decide, rfl⟩

/-- Witness for C2 at `seconds = 3`, `speed = 50`. -/
theorem C2_callback_sequence_double_zero_witness :
    (0 : Int) < 3 ∧
    ((timer_worker (start_timer PumpController.init 3 50 true).1 3 50).2
      = (List.range ((3 : Int).toNat + 1)).map (fun (k : Nat) => (3 : Int) - (k : Int)) ++ [0] ∧
     ((timer_worker (start_timer PumpController.init 3 50 true).1 3 50).2).count 0 = 2) :=
  ⟨by norm_num, C2_callback_sequence_double_zero 3 50 (by norm_num)⟩

/-- Witness for C9 on a state with the pump running and a timer active. -/
theorem C9_cleanup_idempotent_witness :
    cleanup (cleanup (start_timer (start_pump PumpController.init 70).1 5 80 true).1)
      = cleanup (start_timer (start_pump PumpController.init 70).1 5 80 true).1 ∧
    (cleanup (start_timer (start_pump PumpController.init 70).1 5 80 true).1).is_running
      = false ∧
    (cleanup (start_timer (start_pump PumpController.init 70).1 5 80 true).1).current_speed
      = 0 ∧
    (cleanup (start_timer (start_pump PumpController.init 70).1 5 80 true).1).timer_running
      = false :=
  C9_cleanup_idempotent (start_timer (start_pump PumpController.init 70).1 5 80 true).1
    (by constructor <;> decide)

/-- C3 (amended): with the default calibration bounds `dry = 1023`,
`wet = 400` and a raw value in the sensor range `[0, 1023]`,
`get_moisture_percent` returns
`clamp(trunc((1023 - raw) / 623 * 100), 0, 100)` — Python `int()` truncates
toward zero, it does not round.  On this domain the exact truncation equals
CPython's float evaluation: the nonzero exact values `(1023 - raw) * 100 / 623`
that are integers (`raw = 1023`, `raw = 400`) are computed exactly by the
two correctly rounded double operations, and every other value is at
distance at least `1/623` from every integer while the doubles err by less
than `4e-14`.  For arbitrary bounds the float and exact truncations can
differ by one (see the module comment), so no formula over all bounds is
asserted. -/
theorem C3_default_bounds_percent_truncates (s : SensorReader) (i raw : Int)
    (h0 : 0 ≤ i) (h1 : i < (s.moisture.length : Int))
    (hraw : s.moisture.get? i.toNat = some raw)
    (hlo : 0 ≤ raw) (hhi : raw ≤ 1023) :
    s.get_moisture_percent i 1023 400
      = .ok (max 0 (min 100 (Int.tdiv ((1023 - raw) * 100) 623))) := by
  have hget : pyListGet s.moisture i = some raw := by
    unfold pyListGet
    rw [if_pos ⟨h0, h1⟩]
    exact hraw
  unfold SensorReader.get_moisture_percent
  rw [hget]
  dsimp only
  rw [if_neg (by norm_num)]
  norm_num

/-- C3 counterexample: with raw = 700 and the default bounds the code returns
51 (truncation of 51.845...), not the 52 the claim's rounding formula gives. -/
theorem C3_counterexample :
    sensorC3.get_moisture_percent 2 1023 400 = .ok 51 ∧
    ¬ (sensorC3.get_moisture_percent 2 1023 400 = .ok 52) :=
  ⟨rfl, by decide⟩

/-- Witness for C3 at the three raw values of the spec: 1023 → 0, 400 → 100,
700 → 51. -/
theorem C3_default_bounds_percent_truncates_witness :
    sensorC3.get_moisture_percent 0 1023 400 = .ok 0 ∧
    sensorC3.get_moisture_percent 1 1023 400 = .ok 100 ∧
    sensorC3.get_moisture_percent 2 1023 400 = .ok 51 :=
  ⟨(C3_default_bounds_percent_truncates sensorC3 0 1023 (by decide) (by decide) rfl
      (by decide) (by decide)).trans (by decide),
   (C3_default_bounds_percent_truncates sensorC3 1 400 (by decide) (by decide) rfl
      (by decide) (by decide)).trans (by decide),
   (C3_default_bounds_percent_truncates sensorC3 2 700 (by decide) (by decide) rfl
      (by decide) (by decide)).trans (by decide)⟩

/-- C7: for every moisture state, valid channel index and calibration bounds
with `dry == wet`, `get_moisture_percent` fails with the division-by-zero
error (the spec's InvalidCalibration), and with no other outcome. -/
theorem C7_equal_bounds_division_error (s : SensorReader) (i dry wet : Int)
    (h0 : 0 ≤ i) (h1 : i < (s.moisture.length : Int)) (hdw : dry = wet) :
    s.get_moisture_percent i dry wet = .error .zeroDivisionError := by
  cases hraw : s.moisture.get? i.toNat with
  | none =>
    exfalso
    have hlen := List.get?_eq_none.mp hraw
    omega
  | some raw =>
    have hget : pyListGet s.moisture i = some raw := by
      unfold pyListGet
      rw [if_pos ⟨h0, h1⟩]
      exact hraw
    unfold SensorReader.get_moisture_percent
    rw [hget]
    dsimp only
    rw [if_pos (by rw [hdw, sub_self])]

/-- Witness for C7 on a fresh reader with `dry = wet = 500`. -/
theorem C7_equal_bounds_division_error_witness :
    SensorReader.init.get_moisture_percent 1 500 500 = .error .zeroDivisionError :=
  C7_equal_bounds_division_error SensorReader.init 1 500 500 (by decide) (by decide) rfl

/-- C8 (amended): an index `≥ 4` or `< -4` fails with `IndexError` (the spec's
OutOfRange); indices `-4..-1`, however, wrap around Python-style to channels
`0..3` and succeed, contrary to the claim. -/
theorem C8_far_index_error (s : SensorReader) (i dry wet : Int)
    (hlen : s.moisture.length = 4) (hout : i < -4 ∨ 4 ≤ i) :
    s.get_moisture_percent i dry wet = .error .indexError := by
  have hget : pyListGet s.moisture i = none := by
    unfold pyListGet
    rw [if_neg (by rw [hlen]; omega), if_neg (by rw [hlen]; omega)]
  unfold SensorReader.get_moisture_percent
  rw [hget]

/-- C8 counterexample: the negative index `-1` is outside `0..=3` but does not
fail — it wraps to channel 3 and returns a percentage. -/
theorem C8_counterexample :
    SensorReader.init.get_moisture_percent (-1) 1023 400 = .ok 100 := rfl

/-- Witness for C8 at the out-of-range indices 4 and -5. -/
theorem C8_far_index_error_witness :
    SensorReader.init.get_moisture_percent 4 1023 400 = .error .indexError ∧
    SensorReader.init.get_moisture_percent (-5) 1023 400 = .error .indexError :=
  ⟨C8_far_index_error SensorReader.init 4 1023 400 rfl (Or.inr (by decide)),
   C8_far_index_error SensorReader.init (-5) 1023 400 rfl (Or.inl (by decide))⟩

/-- C10: on a freshly constructed `SensorReader` (cached moisture values all
0), `get_moisture_percent` with the default bounds returns 100 for every
channel index in `0..=3` (the formula yields 164, clamped to 100). -/
theorem C10_fresh_reader_full_percent (i : Int) (h0 : 0 ≤ i) (h1 : i < 4) :
    SensorReader.init.get_moisture_percent i 1023 400 = .ok 100 := by
  have hi : i = 0 ∨ i = 1 ∨ i = 2 ∨ i = 3 := by omega
  rcases hi with h | h | h | h <;> subst h <;> rfl

/-- Witness for C10 at channel 2. -/
theorem C10_fresh_reader_full_percent_witness :
    SensorReader.init.get_moisture_percent 2 1023 400 = .ok 100 :=
  C10_fresh_reader_full_percent 2 (by decide) (by decide)

end Vattenpump
